import Mathlib

/-!
A line-oriented TCP bridge to a completion service (`main.go`).

Shallow embedding of `handleRequest` and `askChatGPT`.

Go strings are modelled by `String` (sequences of code points).  Everything the
program obtains from outside itself is supplied explicitly:

* the results of `reader.ReadString('\n')` are a script of `Step`s, one per loop
  iteration;
* the results of `json.Marshal`, `http.NewRequest` and `client.Do` during one call
  of `askChatGPT` are a `Net`;
* every call the program makes on the connection, on standard output and on the
  libraries is recorded, in order, as an `Event`.

Write errors are ignored by the program (`fmt.Fprintln` results are dropped), so a
`connWrite` event records the bytes handed to the connection.
-/

namespace Ex2Week3

/-- Equality of results is decidable when equality of errors and of values is. -/
instance instDecidableEqExcept {ε α : Type} [DecidableEq ε] [DecidableEq α] :
    DecidableEq (Except ε α)
  | .ok a, .ok b => if h : a = b then isTrue (by rw [h]) else isFalse (by simpa using h)
  | .error a, .error b => if h : a = b then isTrue (by rw [h]) else isFalse (by simpa using h)
  | .ok _, .error _ => isFalse (by simp)
  | .error _, .ok _ => isFalse (by simp)

/-! ## Library: `unicode.IsSpace` and `strings.TrimSpace` -/

/-- White space in the sense of `unicode.IsSpace`: the Latin-1 spaces
`'\t' '\n' '\v' '\f' '\r' ' '`, U+0085, U+00A0, and the code points with the
Unicode White_Space property. -/
def isSpace (c : Char) : Bool :=
  let n := c.toNat
  n == 0x09 || n == 0x0A || n == 0x0B || n == 0x0C || n == 0x0D || n == 0x20 ||
  n == 0x85 || n == 0xA0 || n == 0x1680 || (0x2000 ≤ n && n ≤ 0x200A) ||
  n == 0x2028 || n == 0x2029 || n == 0x202F || n == 0x205F || n == 0x3000

/-- Remove the leading white space of a sequence of code points. -/
def trimLeft (l : List Char) : List Char :=
  l.dropWhile isSpace

/-- Remove the trailing white space of a sequence of code points. -/
def trimRight (l : List Char) : List Char :=
  (l.reverse.dropWhile isSpace).reverse

/-- The library function `strings.TrimSpace`: the argument without its leading and
trailing white space.  (A byte that is not part of a valid UTF-8 sequence is read by
the library as U+FFFD, which is not white space.) -/
def TrimSpace (s : String) : String :=
  ⟨trimRight (trimLeft s.data)⟩

/-- Number of newline bytes (0x0A) of a string.  In UTF-8 the byte 0x0A occurs only
as the encoding of the code point U+000A. -/
def newlineCount (s : String) : Nat :=
  s.data.count '\n'

/-! ## Data model (`main.go` lines 14-28) -/

/-- The constant `openAIURL`. -/
def openAIURL : String :=
  "https://api.openai.com/v1/engines/gpt-3.5-turbo-instruct/completions"

/-- A `float64` given by a decimal constant of the source text, `mantissa * 10 ^ exponent`.
The program does no arithmetic on such values. -/
structure Float64Const where
  mantissa : Int
  exponent : Int
deriving DecidableEq, Repr

/-- The struct `openAIRequest`. -/
structure openAIRequest where
  Prompt : String
  MaxTokens : Int
  Temperature : Float64Const
deriving DecidableEq, Repr

/-- The element type of `openAIResponse.Choices`. -/
structure Choice where
  Text : String
deriving DecidableEq, Repr

/-- The struct `openAIResponse`. -/
structure openAIResponse where
  Choices : List Choice
deriving DecidableEq, Repr

/-! ## Library: `encoding/json` decoding into `openAIResponse` -/

/-- A JSON value, as the decoder's scanner delimits it. -/
inductive JSON where
  | null : JSON
  | bool (b : Bool) : JSON
  | number (literal : String) : JSON
  | string (s : String) : JSON
  | array (elems : List JSON) : JSON
  | object (members : List (String × JSON)) : JSON

/-- The name `encoding/json` gives to the kind of a JSON value in its type errors. -/
def JSON.kind : JSON → String
  | .null => "null"
  | .bool _ => "bool"
  | .number _ => "number"
  | .string _ => "string"
  | .array _ => "array"
  | .object _ => "object"

/-- What `resp.Body` holds: either a stream from which no complete JSON value can be
read (empty, cut short, syntactically wrong, read error), with the error the decoder
reports for it, or a stream that starts with a JSON value. -/
inductive Body where
  | invalid (err : String) : Body
  | json (v : JSON) : Body

/-- The errors of `(*json.Decoder).Decode`. -/
inductive DecodeError where
  | stream (msg : String) : DecodeError
  | unmarshalType (value : String) (goType : String) (field : String) : DecodeError
deriving DecidableEq, Repr

/-- The method `Error` of a decoding error. -/
def DecodeError.Error : DecodeError → String
  | .stream msg => msg
  | .unmarshalType value goType "" =>
      "json: cannot unmarshal " ++ value ++ " into Go value of type " ++ goType
  | .unmarshalType value goType field =>
      "json: cannot unmarshal " ++ value ++ " into Go struct field " ++ field ++
        " of type " ++ goType

/-- Case folding of member names: ASCII letters to upper case, and the two letters
that fold to ASCII ones (U+017F to `S`, U+212A to `K`). -/
def foldRune (c : Char) : Char :=
  if 'a'.toNat ≤ c.toNat ∧ c.toNat ≤ 'z'.toNat then Char.ofNat (c.toNat - 32)
  else if c.toNat = 0x17F then 'S'
  else if c.toNat = 0x212A then 'K'
  else c

/-- A JSON member name selects the struct field tagged `name`: an exact match or a
case-insensitive one. -/
def matchField (name key : String) : Bool :=
  key == name || key.data.map foldRune == name.data.map foldRune

/-- Decode a JSON value into a `string` field holding `cur`: a string is stored,
`null` has no effect, anything else is a type error. -/
def decodeText (cur : String) : JSON → Except DecodeError String
  | .string s => .ok s
  | .null => .ok cur
  | v => .error (.unmarshalType v.kind "string" ".choices.text")

/-- Decode the members of a JSON object, in order, into a candidate. -/
def decodeChoiceMembers (cur : Choice) : List (String × JSON) → Except DecodeError Choice
  | [] => .ok cur
  | (k, v) :: rest =>
      if matchField "text" k then
        match decodeText cur.Text v with
        | .ok t => decodeChoiceMembers ⟨t⟩ rest
        | .error e => .error e
      else decodeChoiceMembers cur rest

/-- Decode one element of the `choices` array into a fresh candidate. -/
def decodeChoice : JSON → Except DecodeError Choice
  | .object members => decodeChoiceMembers ⟨""⟩ members
  | .null => .ok ⟨""⟩
  | v => .error (.unmarshalType v.kind "struct \x7b Text string \"json:\\\"text\\\"\" \x7d"
      "openAIResponse.choices")

/-- Decode the elements of a JSON array, in order. -/
def decodeElems : List JSON → Except DecodeError (List Choice)
  | [] => .ok []
  | v :: rest =>
      match decodeChoice v with
      | .ok c =>
          match decodeElems rest with
          | .ok cs => .ok (c :: cs)
          | .error e => .error e
      | .error e => .error e

/-- Decode a JSON value into the slice field `Choices`: an array resets the slice and
appends each element, `null` sets it to nil, anything else is a type error. -/
def decodeChoices : JSON → Except DecodeError (List Choice)
  | .array elems => decodeElems elems
  | .null => .ok []
  | v => .error (.unmarshalType v.kind "[]struct \x7b Text string \"json:\\\"text\\\"\" \x7d"
      "openAIResponse.choices")

/-- Decode the members of a JSON object, in order, into an `openAIResponse`; members
that select no field are skipped. -/
def decodeMembers (cur : openAIResponse) :
    List (String × JSON) → Except DecodeError openAIResponse
  | [] => .ok cur
  | (k, v) :: rest =>
      if matchField "choices" k then
        match decodeChoices v with
        | .ok cs => decodeMembers ⟨cs⟩ rest
        | .error e => .error e
      else decodeMembers cur rest

/-- The call `json.NewDecoder(resp.Body).Decode(&response)` on a zero `response`
(line 118): an object is decoded member by member, `null` leaves the zero value, any
other JSON value is a type error. -/
def Decode : Body → Except DecodeError openAIResponse
  | .invalid err => .error (.stream err)
  | .json (.object members) => decodeMembers ⟨[]⟩ members
  | .json .null => .ok ⟨[]⟩
  | .json v => .error (.unmarshalType v.kind "main.openAIResponse" "")

/-! ## The environment and the record of calls -/

/-- An HTTP request as `askChatGPT` hands it to `client.Do`. -/
structure HTTPRequest where
  method : String
  url : String
  header : List (String × String)
  body : String
deriving DecidableEq, Repr

/-- What the libraries and the network answer during one call of `askChatGPT`. -/
structure Net where
  /-- The result of `json.Marshal`. -/
  Marshal : openAIRequest → Except String String
  /-- The error of `http.NewRequest` on method, URL and body, if any. -/
  NewRequest : String → String → String → Option String
  /-- The result of `client.Do`: a transport error or the response body. -/
  Do : HTTPRequest → Except String Body

/-- The error of `reader.ReadString`. -/
inductive ReadErr where
  | eof : ReadErr
  | other (msg : String) : ReadErr
deriving DecidableEq, Repr

/-- The method `Error` of a read error. -/
def ReadErr.Error : ReadErr → String
  | .eof => "EOF"
  | .other msg => msg

/-- What the environment does during one iteration of the loop of `handleRequest`:
`ReadString` returns a line and no error, and the network behaves as `net` during the
call of `askChatGPT`; or `ReadString` returns the data read so far and an error. -/
inductive Step where
  | line (message : String) (net : Net) : Step
  | readErr (data : String) (err : ReadErr) : Step

/-- The calls of the program, in the order they are made. -/
inductive Event where
  | readString (message : String) (err : Option ReadErr) : Event
  | stdout (s : String) : Event
  | marshal (v : openAIRequest) : Event
  | newRequest (method url body : String) : Event
  | clientDo (req : HTTPRequest) : Event
  | bodyClose : Event
  | connWrite (bytes : String) : Event
  | connClose : Event
deriving DecidableEq, Repr

/-- The error values `askChatGPT` returns, by the statement that returns them. -/
inductive AskError where
  | marshal (msg : String) : AskError
  | newRequest (msg : String) : AskError
  | transport (msg : String) : AskError
  | decode (e : DecodeError) : AskError
  | noResponse : AskError
deriving DecidableEq, Repr

/-- The method `Error` of the error `askChatGPT` returns. -/
def AskError.Error : AskError → String
  | .marshal msg => msg
  | .newRequest msg => msg
  | .transport msg => msg
  | .decode e => e.Error
  | .noResponse => "no response from ChatGPT"

/-- Whether a result of `askChatGPT` is the error returned by `Decode` (line 119). -/
def isDecodeFailure : Except AskError String → Bool
  | .error (.decode _) => true
  | _ => false

/-! ## `askChatGPT` (lines 90-127) -/

/-- The function `askChatGPT`: its result and the calls it makes. -/
def askChatGPT (net : Net) (prompt apiKey : String) :
    Except AskError String × List Event :=
  let requestBody : openAIRequest :=
    { Prompt := prompt, MaxTokens := 150, Temperature := ⟨7, -1⟩ }
  match net.Marshal requestBody with
  | .error e => (.error (.marshal e), [.marshal requestBody])
  | .ok jsonBody =>
    match net.NewRequest "POST" openAIURL jsonBody with
    | some e =>
        (.error (.newRequest e),
          [.marshal requestBody, .newRequest "POST" openAIURL jsonBody])
    | none =>
      let req : HTTPRequest :=
        { method := "POST", url := openAIURL,
          header := [("Content-Type", "application/json"),
                     ("Authorization", "Bearer " ++ apiKey)],
          body := jsonBody }
      match net.Do req with
      | .error e =>
          (.error (.transport e),
            [.marshal requestBody, .newRequest "POST" openAIURL jsonBody, .clientDo req])
      | .ok body =>
        let calls : List Event :=
          [.marshal requestBody, .newRequest "POST" openAIURL jsonBody, .clientDo req,
            .bodyClose]
        match Decode body with
        | .error e => (.error (.decode e), calls)
        | .ok response =>
          match response.Choices with
          | c :: _ => (.ok (TrimSpace c.Text), calls)
          | [] => (.error .noResponse, calls)

/-! ## `handleRequest` (lines 57-88) -/

/-- How a run of `handleRequest` on a script ends: the calls made, and whether the
function returned (`false`: the script is used up and the goroutine is blocked in
`ReadString`). -/
structure Outcome where
  trace : List Event
  returned : Bool
deriving DecidableEq, Repr

/-- Put calls in front of an outcome. -/
def Outcome.after (evs : List Event) (o : Outcome) : Outcome :=
  { o with trace := evs ++ o.trace }

/-- The function `handleRequest` run against a script of read results. -/
def handleRequest (apiKey : String) : List Step → Outcome
  | [] => ⟨[], false⟩
  | .readErr data err :: _ =>
      let notice :=
        match err with
        | .eof => "Client closed the connection\n"
        | e => "Error reading from connection: " ++ e.Error ++ "\n"
      ⟨[.readString data (some err), .stdout notice, .connClose], true⟩
  | .line message net :: rest =>
      match askChatGPT net (TrimSpace message) apiKey with
      | (.error err, calls) =>
          Outcome.after
            ([.readString message none] ++ calls ++
              [.stdout ("Error asking ChatGPT: " ++ err.Error ++ "\n"),
               .connWrite ("Error: " ++ err.Error ++ "\n")])
            (handleRequest apiKey rest)
      | (.ok response, calls) =>
          if TrimSpace message = "quit" then
            ⟨[.readString message none] ++ calls ++
              [.connWrite (response ++ "\n"), .stdout "Client sent quit command\n",
               .connClose], true⟩
          else
            Outcome.after
              ([.readString message none] ++ calls ++ [.connWrite (response ++ "\n")])
              (handleRequest apiKey rest)

/-! ## Observations on traces -/

/-- The byte chunks written to the connection, in order. -/
def connWrites : List Event → List String
  | [] => []
  | .connWrite bytes :: rest => bytes :: connWrites rest
  | _ :: rest => connWrites rest

/-- The number of calls of `ReadString`. -/
def readCount : List Event → Nat
  | [] => 0
  | .readString _ _ :: rest => readCount rest + 1
  | _ :: rest => readCount rest

/-- The number of calls of `conn.Close`. -/
def closeCount : List Event → Nat
  | [] => 0
  | .connClose :: rest => closeCount rest + 1
  | _ :: rest => closeCount rest

/-- The payloads handed to `json.Marshal`, in order. -/
def marshalled : List Event → List openAIRequest
  | [] => []
  | .marshal v :: rest => v :: marshalled rest
  | _ :: rest => marshalled rest

/-! ## Sample environments -/

/-- JSON text of a request whose prompt needs no escaping. -/
def plainMarshal (v : openAIRequest) : String :=
  "\x7b\"prompt\":\"" ++ v.Prompt ++ "\",\"max_tokens\":150,\"temperature\":0.7\x7d"

/-- A network on which the service answers every request with `body`. -/
def netAnswering (body : Body) : Net :=
  { Marshal := fun v => .ok (plainMarshal v)
    NewRequest := fun _ _ _ => none
    Do := fun _ => .ok body }

/-- A network on which the service cannot be reached. -/
def netDown : Net :=
  { Marshal := fun v => .ok (plainMarshal v)
    NewRequest := fun _ _ _ => none
    Do := fun _ => .error "dial tcp: connect: connection refused" }

/-- The body `{"choices":[{"text": t}]}`. -/
def bodyWithText (t : String) : Body :=
  .json (.object [("choices", .array [.object [("text", .string t)]])])


/-! ## Facts about `TrimSpace` -/

theorem trimLeft_split (l : List Char) :
    ∃ pre, l = pre ++ trimLeft l ∧ ∀ c ∈ pre, isSpace c = true := by
  refine ⟨l.takeWhile isSpace, ?_, ?_⟩
  · simp [trimLeft, List.takeWhile_append_dropWhile]
  · intro c hc
    exact List.mem_takeWhile_imp hc

theorem trimLeft_head (l : List Char) (c : Char) (h : (trimLeft l).head? = some c) :
    isSpace c = false := by
  unfold trimLeft at h
  have := List.head?_dropWhile_not isSpace l
  rw [h] at this
  simpa using this

theorem trimRight_split (l : List Char) :
    ∃ post, l = trimRight l ++ post ∧ ∀ c ∈ post, isSpace c = true := by
  refine ⟨(l.reverse.takeWhile isSpace).reverse, ?_, ?_⟩
  · have h := List.takeWhile_append_dropWhile isSpace l.reverse
    have h2 := congrArg List.reverse h
    simp only [List.reverse_append, List.reverse_reverse] at h2
    simpa [trimRight] using h2.symm
  · intro c hc
    exact List.mem_takeWhile_imp (List.mem_reverse.mp hc)

theorem trimRight_getLast (l : List Char) (c : Char) (h : (trimRight l).getLast? = some c) :
    isSpace c = false := by
  unfold trimRight at h
  rw [List.getLast?_reverse] at h
  have := List.head?_dropWhile_not isSpace l.reverse
  rw [h] at this
  simpa using this

/-- The result of `TrimSpace` is the argument without a leading and a trailing run of
white space, and it neither starts nor ends with white space. -/
theorem TrimSpace_spec (s : String) :
    ∃ pre post : List Char,
      s.data = pre ++ (TrimSpace s).data ++ post ∧
      (∀ c ∈ pre, isSpace c = true) ∧ (∀ c ∈ post, isSpace c = true) ∧
      (∀ c, (TrimSpace s).data.head? = some c → isSpace c = false) ∧
      (∀ c, (TrimSpace s).data.getLast? = some c → isSpace c = false) := by
  obtain ⟨pre, hpre, hpre2⟩ := trimLeft_split s.data
  obtain ⟨post, hpost, hpost2⟩ := trimRight_split (trimLeft s.data)
  refine ⟨pre, post, ?_, hpre2, hpost2, ?_, ?_⟩
  · show s.data = pre ++ trimRight (trimLeft s.data) ++ post
    rw [List.append_assoc, ← hpost, ← hpre]
  · intro c hc
    apply trimLeft_head s.data c
    change (trimRight (trimLeft s.data)).head? = some c at hc
    rw [hpost]
    cases h : trimRight (trimLeft s.data) with
    | nil => rw [h] at hc; simp at hc
    | cons a t => rw [h] at hc; simpa using hc
  · intro c hc
    exact trimRight_getLast (trimLeft s.data) c hc

/-! ## Facts about traces -/

theorem connWrites_append (a b : List Event) :
    connWrites (a ++ b) = connWrites a ++ connWrites b := by
  induction a with
  | nil => rfl
  | cons e t ih => cases e <;> simp [connWrites, ih]

theorem readCount_append (a b : List Event) :
    readCount (a ++ b) = readCount a + readCount b := by
  induction a with
  | nil => simp [readCount]
  | cons e t ih => cases e <;> simp [readCount, ih]; omega

theorem closeCount_append (a b : List Event) :
    closeCount (a ++ b) = closeCount a + closeCount b := by
  induction a with
  | nil => simp [closeCount]
  | cons e t ih => cases e <;> simp [closeCount, ih]; omega

theorem marshalled_append (a b : List Event) :
    marshalled (a ++ b) = marshalled a ++ marshalled b := by
  induction a with
  | nil => rfl
  | cons e t ih => cases e <;> simp [marshalled, ih]

/-! ## Facts about `askChatGPT` -/

/-- The calls of `askChatGPT` start with `json.Marshal` on the request payload and
touch neither the connection nor `ReadString`. -/
theorem askChatGPT_calls (net : Net) (prompt apiKey : String) :
    (∃ tail, (askChatGPT net prompt apiKey).2 =
        .marshal ⟨prompt, 150, ⟨7, -1⟩⟩ :: tail ∧ marshalled tail = []) ∧
    connWrites (askChatGPT net prompt apiKey).2 = [] ∧
    readCount (askChatGPT net prompt apiKey).2 = 0 ∧
    closeCount (askChatGPT net prompt apiKey).2 = 0 := by
  cases hM : net.Marshal ⟨prompt, 150, ⟨7, -1⟩⟩ with
  | error e => simp [askChatGPT, hM, connWrites, readCount, closeCount, marshalled]
  | ok jsonBody =>
    cases hN : net.NewRequest "POST" openAIURL jsonBody with
    | some e => simp [askChatGPT, hM, hN, connWrites, readCount, closeCount, marshalled]
    | none =>
      cases hD : net.Do ⟨"POST", openAIURL,
          [("Content-Type", "application/json"), ("Authorization", "Bearer " ++ apiKey)],
          jsonBody⟩ with
      | error e =>
        simp [askChatGPT, hM, hN, hD, connWrites, readCount, closeCount, marshalled]
      | ok body =>
        cases hd : Decode body with
        | error e =>
          simp [askChatGPT, hM, hN, hD, hd, connWrites, readCount, closeCount, marshalled]
        | ok r =>
          obtain ⟨choices⟩ := r
          cases choices <;>
            simp [askChatGPT, hM, hN, hD, hd, connWrites, readCount, closeCount, marshalled]

/-- When the service is reached, the result of `askChatGPT` is decided by the decoded
response body. -/
theorem askChatGPT_of_body (net : Net) (prompt apiKey jsonBody : String) (body : Body)
    (hM : net.Marshal ⟨prompt, 150, ⟨7, -1⟩⟩ = .ok jsonBody)
    (hN : net.NewRequest "POST" openAIURL jsonBody = none)
    (hD : net.Do ⟨"POST", openAIURL,
        [("Content-Type", "application/json"), ("Authorization", "Bearer " ++ apiKey)],
        jsonBody⟩ = .ok body) :
    askChatGPT net prompt apiKey =
      ((match Decode body with
        | .error e => .error (.decode e)
        | .ok response =>
          match response.Choices with
          | c :: _ => .ok (TrimSpace c.Text)
          | [] => .error .noResponse),
       [.marshal ⟨prompt, 150, ⟨7, -1⟩⟩, .newRequest "POST" openAIURL jsonBody,
        .clientDo ⟨"POST", openAIURL,
          [("Content-Type", "application/json"), ("Authorization", "Bearer " ++ apiKey)],
          jsonBody⟩, .bodyClose]) := by
  cases hd : Decode body with
  | error e => simp [askChatGPT, hM, hN, hD, hd]
  | ok r =>
    obtain ⟨choices⟩ := r
    cases choices <;> simp [askChatGPT, hM, hN, hD, hd]

/-- A successful result of `askChatGPT` is the trimmed text of the first candidate of
a decoded response. -/
theorem askChatGPT_ok (net : Net) (prompt apiKey response : String)
    (h : (askChatGPT net prompt apiKey).1 = .ok response) :
    ∃ body c cs, Decode body = .ok ⟨c :: cs⟩ ∧ response = TrimSpace c.Text := by
  cases hM : net.Marshal ⟨prompt, 150, ⟨7, -1⟩⟩ with
  | error e => simp [askChatGPT, hM] at h
  | ok jsonBody =>
    cases hN : net.NewRequest "POST" openAIURL jsonBody with
    | some e => simp [askChatGPT, hM, hN] at h
    | none =>
      cases hD : net.Do ⟨"POST", openAIURL,
          [("Content-Type", "application/json"), ("Authorization", "Bearer " ++ apiKey)],
          jsonBody⟩ with
      | error e => simp [askChatGPT, hM, hN, hD] at h
      | ok body =>
        cases hd : Decode body with
        | error e => simp [askChatGPT, hM, hN, hD, hd] at h
        | ok r =>
          obtain ⟨choices⟩ := r
          cases choices with
          | nil => simp [askChatGPT, hM, hN, hD, hd] at h
          | cons c cs =>
            simp [askChatGPT, hM, hN, hD, hd] at h
            exact ⟨body, c, cs, hd, h.symm⟩

/-! ## Facts about `handleRequest` -/

theorem handleRequest_readErr (apiKey data : String) (err : ReadErr) (rest : List Step) :
    ∃ notice, handleRequest apiKey (.readErr data err :: rest) =
      ⟨[.readString data (some err), .stdout notice, .connClose], true⟩ := by
  simp [handleRequest]

theorem handleRequest_line_error (apiKey message : String) (net : Net) (rest : List Step)
    (e : AskError) (h : (askChatGPT net (TrimSpace message) apiKey).1 = .error e) :
    handleRequest apiKey (.line message net :: rest) =
      Outcome.after
        ([.readString message none] ++ (askChatGPT net (TrimSpace message) apiKey).2 ++
          [.stdout ("Error asking ChatGPT: " ++ e.Error ++ "\n"),
           .connWrite ("Error: " ++ e.Error ++ "\n")])
        (handleRequest apiKey rest) := by
  rw [handleRequest]
  revert h
  generalize askChatGPT net (TrimSpace message) apiKey = r
  obtain ⟨r1, calls⟩ := r
  intro h
  simp only at h
  subst h
  rfl

theorem handleRequest_line_ok_quit (apiKey message : String) (net : Net) (rest : List Step)
    (response : String) (h : (askChatGPT net (TrimSpace message) apiKey).1 = .ok response)
    (hq : TrimSpace message = "quit") :
    handleRequest apiKey (.line message net :: rest) =
      ⟨[.readString message none] ++ (askChatGPT net (TrimSpace message) apiKey).2 ++
        [.connWrite (response ++ "\n"), .stdout "Client sent quit command\n",
         .connClose], true⟩ := by
  rw [handleRequest]
  revert h
  generalize askChatGPT net (TrimSpace message) apiKey = r
  obtain ⟨r1, calls⟩ := r
  intro h
  simp only at h
  subst h
  simp [hq]

theorem handleRequest_line_ok_other (apiKey message : String) (net : Net)
    (rest : List Step) (response : String)
    (h : (askChatGPT net (TrimSpace message) apiKey).1 = .ok response)
    (hq : TrimSpace message ≠ "quit") :
    handleRequest apiKey (.line message net :: rest) =
      Outcome.after
        ([.readString message none] ++ (askChatGPT net (TrimSpace message) apiKey).2 ++
          [.connWrite (response ++ "\n")])
        (handleRequest apiKey rest) := by
  rw [handleRequest]
  revert h
  generalize askChatGPT net (TrimSpace message) apiKey = r
  obtain ⟨r1, calls⟩ := r
  intro h
  simp only at h
  subst h
  simp [hq]

/-- A run on a non-empty script starts with a call of `ReadString`. -/
theorem handleRequest_starts_reading (apiKey : String) (step : Step) (rest : List Step) :
    ∃ m e tail, (handleRequest apiKey (step :: rest)).trace = .readString m e :: tail := by
  cases step with
  | readErr data err =>
    obtain ⟨notice, h⟩ := handleRequest_readErr apiKey data err rest
    exact ⟨data, some err, _, by rw [h]⟩
  | line message net =>
    cases h : (askChatGPT net (TrimSpace message) apiKey).1 with
    | error e =>
      rw [handleRequest_line_error apiKey message net rest e h]
      exact ⟨message, none, _, by simp [Outcome.after]; rfl⟩
    | ok response =>
      by_cases hq : TrimSpace message = "quit"
      · rw [handleRequest_line_ok_quit apiKey message net rest response h hq]
        exact ⟨message, none, _, by simp; rfl⟩
      · rw [handleRequest_line_ok_other apiKey message net rest response h hq]
        exact ⟨message, none, _, by simp [Outcome.after]; rfl⟩

theorem newlineCount_line (payload : String) :
    newlineCount (payload ++ "\n") = newlineCount payload + 1 ∧
    (payload ++ "\n").data.getLast? = some '\n' := by
  simp [newlineCount, String.data_append, List.count_append]

/-! ## The `quit` sentinel -/

/-- C1 (the code departs from the claim): the client sends `quit` while the service
cannot be reached, then `hi`, then closes its side.  The line trims to `quit` and
`askChatGPT` fails for it; `handleRequest` writes the error line, skips the sentinel
check, reads two more times and writes a second response; `conn.Close` comes only after
the end of the stream. -/
theorem quit_line_with_failed_completion :
    TrimSpace "quit\n" = "quit" ∧
    (askChatGPT netDown "quit" "key").1 =
      .error (.transport "dial tcp: connect: connection refused") ∧
    handleRequest "key" [.line "quit\n" netDown, .line "hi\n" netDown, .readErr "" .eof] =
      ⟨[.readString "quit\n" none,
        .marshal ⟨"quit", 150, ⟨7, -1⟩⟩,
        .newRequest "POST" openAIURL (plainMarshal ⟨"quit", 150, ⟨7, -1⟩⟩),
        .clientDo ⟨"POST", openAIURL,
          [("Content-Type", "application/json"), ("Authorization", "Bearer key")],
          plainMarshal ⟨"quit", 150, ⟨7, -1⟩⟩⟩,
        .stdout "Error asking ChatGPT: dial tcp: connect: connection refused\n",
        .connWrite "Error: dial tcp: connect: connection refused\n",
        .readString "hi\n" none,
        .marshal ⟨"hi", 150, ⟨7, -1⟩⟩,
        .newRequest "POST" openAIURL (plainMarshal ⟨"hi", 150, ⟨7, -1⟩⟩),
        .clientDo ⟨"POST", openAIURL,
          [("Content-Type", "application/json"), ("Authorization", "Bearer key")],
          plainMarshal ⟨"hi", 150, ⟨7, -1⟩⟩⟩,
        .stdout "Error asking ChatGPT: dial tcp: connect: connection refused\n",
        .connWrite "Error: dial tcp: connect: connection refused\n",
        .readString "" (some .eof),
        .stdout "Client closed the connection\n",
        .connClose], true⟩ := by
  refine ⟨by decide, by decide, by decide⟩

/-! ## Response framing -/

/-- C2 (counterexample): the service answers the line `hi` with the completion text
`a`, newline, `b`; the bytes written for the request hold two newline bytes. -/
theorem inner_newline_is_written :
    connWrites (handleRequest "key"
      [.line "hi\n" (netAnswering (bodyWithText "a\nb"))]).trace = ["a\nb\n"] ∧
    newlineCount "a\nb\n" = 2 := by
  refine ⟨by decide, by decide⟩

/-- C2 (amended): for every line read without error, `handleRequest` writes to the
connection exactly once before the next `ReadString` (or before closing): the trimmed
completion text, or `Error: ` followed by the failure message, followed by one newline
byte, which is the last byte.  The bytes hold one newline byte more than the text or
message itself, so exactly one when that holds none. -/
theorem one_write_per_line (apiKey message : String) (net : Net) (rest : List Step) :
    ∃ payload before following,
      (handleRequest apiKey (.line message net :: rest)).trace =
        .readString message none :: before ++ [.connWrite (payload ++ "\n")] ++ following ∧
      connWrites before = [] ∧ readCount before = 0 ∧ closeCount before = 0 ∧
      (following = [.stdout "Client sent quit command\n", .connClose] ∨
        following = (handleRequest apiKey rest).trace) ∧
      ((∃ body c cs, Decode body = .ok ⟨c :: cs⟩ ∧
          (askChatGPT net (TrimSpace message) apiKey).1 = .ok (TrimSpace c.Text) ∧
          payload = TrimSpace c.Text) ∨
        (∃ e, (askChatGPT net (TrimSpace message) apiKey).1 = .error e ∧
          payload = "Error: " ++ e.Error)) ∧
      (payload ++ "\n").data.getLast? = some '\n' ∧
      newlineCount (payload ++ "\n") = newlineCount payload + 1 ∧
      (newlineCount payload = 0 → newlineCount (payload ++ "\n") = 1) := by
  obtain ⟨_, hw, hr, hc⟩ := askChatGPT_calls net (TrimSpace message) apiKey
  cases h : (askChatGPT net (TrimSpace message) apiKey).1 with
  | error e =>
    refine ⟨"Error: " ++ e.Error,
      (askChatGPT net (TrimSpace message) apiKey).2 ++
        [.stdout ("Error asking ChatGPT: " ++ e.Error ++ "\n")],
      (handleRequest apiKey rest).trace, ?_, ?_, ?_, ?_, Or.inr rfl,
      Or.inr ⟨e, rfl, rfl⟩, (newlineCount_line _).2, (newlineCount_line _).1, ?_⟩
    · rw [handleRequest_line_error apiKey message net rest e h]
      simp [Outcome.after, String.append_assoc]
    · simp [connWrites_append, hw, connWrites]
    · simp [readCount_append, hr, readCount]
    · simp [closeCount_append, hc, closeCount]
    · intro h0
      rw [(newlineCount_line _).1, h0]
  | ok response =>
    obtain ⟨body, c, cs, hdec, hresp⟩ :=
      askChatGPT_ok net (TrimSpace message) apiKey response h
    by_cases hq : TrimSpace message = "quit"
    · refine ⟨response, (askChatGPT net (TrimSpace message) apiKey).2,
        [.stdout "Client sent quit command\n", .connClose], ?_, hw, hr, hc, Or.inl rfl,
        Or.inl ⟨body, c, cs, hdec, by rw [hresp], hresp⟩,
        (newlineCount_line _).2, (newlineCount_line _).1, ?_⟩
      · rw [handleRequest_line_ok_quit apiKey message net rest response h hq]
        simp
      · intro h0
        rw [(newlineCount_line _).1, h0]
    · refine ⟨response, (askChatGPT net (TrimSpace message) apiKey).2,
        (handleRequest apiKey rest).trace, ?_, hw, hr, hc, Or.inr rfl,
        Or.inl ⟨body, c, cs, hdec, by rw [hresp], hresp⟩,
        (newlineCount_line _).2, (newlineCount_line _).1, ?_⟩
      · rw [handleRequest_line_ok_other apiKey message net rest response h hq]
        simp [Outcome.after]
      · intro h0
        rw [(newlineCount_line _).1, h0]

/-- C2 (amended), at the line `hi` answered with the text `  hello  `. -/
theorem one_write_per_line_witness :
    ∃ payload before following,
      (handleRequest "key"
        (.line "hi\n" (netAnswering (bodyWithText "  hello  ")) :: [])).trace =
        .readString "hi\n" none :: before ++ [.connWrite (payload ++ "\n")] ++ following ∧
      connWrites before = [] ∧ readCount before = 0 ∧ closeCount before = 0 ∧
      (following = [.stdout "Client sent quit command\n", .connClose] ∨
        following = (handleRequest "key" []).trace) ∧
      ((∃ body c cs, Decode body = .ok ⟨c :: cs⟩ ∧
          (askChatGPT (netAnswering (bodyWithText "  hello  "))
            (TrimSpace "hi\n") "key").1 = .ok (TrimSpace c.Text) ∧
          payload = TrimSpace c.Text) ∨
        (∃ e, (askChatGPT (netAnswering (bodyWithText "  hello  "))
            (TrimSpace "hi\n") "key").1 = .error e ∧
          payload = "Error: " ++ e.Error)) ∧
      (payload ++ "\n").data.getLast? = some '\n' ∧
      newlineCount (payload ++ "\n") = newlineCount payload + 1 ∧
      (newlineCount payload = 0 → newlineCount (payload ++ "\n") = 1) :=
  one_write_per_line "key" "hi\n" (netAnswering (bodyWithText "  hello  ")) []

/-! ## The result of `askChatGPT` -/

/-- C3: when the service is reached and the response body decodes to a non-empty
sequence of candidates, `askChatGPT` returns the text of the first candidate without
its leading and trailing white space, and no error, whatever the other candidates
are. -/
theorem first_choice_returned (net : Net) (prompt apiKey jsonBody : String) (body : Body)
    (c : Choice) (cs : List Choice)
    (hM : net.Marshal ⟨prompt, 150, ⟨7, -1⟩⟩ = .ok jsonBody)
    (hN : net.NewRequest "POST" openAIURL jsonBody = none)
    (hD : net.Do ⟨"POST", openAIURL,
        [("Content-Type", "application/json"), ("Authorization", "Bearer " ++ apiKey)],
        jsonBody⟩ = .ok body)
    (hdec : Decode body = .ok ⟨c :: cs⟩) :
    (askChatGPT net prompt apiKey).1 = .ok (TrimSpace c.Text) ∧
    ∃ pre post : List Char,
      c.Text.data = pre ++ (TrimSpace c.Text).data ++ post ∧
      (∀ x ∈ pre, isSpace x = true) ∧ (∀ x ∈ post, isSpace x = true) ∧
      (∀ x, (TrimSpace c.Text).data.head? = some x → isSpace x = false) ∧
      (∀ x, (TrimSpace c.Text).data.getLast? = some x → isSpace x = false) := by
  refine ⟨?_, TrimSpace_spec c.Text⟩
  rw [askChatGPT_of_body net prompt apiKey jsonBody body hM hN hD, hdec]

/-- C3, at a body with the two candidates `  hello  ` and `other`. -/
theorem first_choice_returned_witness :
    (askChatGPT
      (netAnswering (.json (.object [("choices",
        .array [.object [("text", .string "  hello  ")],
                .object [("text", .string "other")]])])))
      "hi" "key").1 = .ok "hello" :=
  (first_choice_returned
    (netAnswering (.json (.object [("choices",
        .array [.object [("text", .string "  hello  ")],
                .object [("text", .string "other")]])])))
    "hi" "key" (plainMarshal ⟨"hi", 150, ⟨7, -1⟩⟩) _ ⟨"  hello  "⟩ [⟨"other"⟩]
    rfl rfl rfl (by decide)).1.trans (by decide)

/-- C4: when the service is reached and the response body decodes to an empty
sequence of candidates, `askChatGPT` fails with the message `no response from ChatGPT`;
`handleRequest` writes exactly the line `Error: no response from ChatGPT`, does not
close the connection, and goes on with the rest of the script as a fresh run would,
starting with the next `ReadString`. -/
theorem empty_choices_error_line (apiKey message jsonBody : String) (net : Net)
    (body : Body) (rest : List Step)
    (hM : net.Marshal ⟨TrimSpace message, 150, ⟨7, -1⟩⟩ = .ok jsonBody)
    (hN : net.NewRequest "POST" openAIURL jsonBody = none)
    (hD : net.Do ⟨"POST", openAIURL,
        [("Content-Type", "application/json"), ("Authorization", "Bearer " ++ apiKey)],
        jsonBody⟩ = .ok body)
    (hdec : Decode body = .ok ⟨[]⟩) :
    (askChatGPT net (TrimSpace message) apiKey).1 = .error .noResponse ∧
    AskError.noResponse.Error = "no response from ChatGPT" ∧
    handleRequest apiKey (.line message net :: rest) =
      Outcome.after
        [.readString message none,
         .marshal ⟨TrimSpace message, 150, ⟨7, -1⟩⟩,
         .newRequest "POST" openAIURL jsonBody,
         .clientDo ⟨"POST", openAIURL,
           [("Content-Type", "application/json"), ("Authorization", "Bearer " ++ apiKey)],
           jsonBody⟩,
         .bodyClose,
         .stdout "Error asking ChatGPT: no response from ChatGPT\n",
         .connWrite "Error: no response from ChatGPT\n"]
        (handleRequest apiKey rest) ∧
    (∀ step rest', rest = step :: rest' →
      ∃ m e tail, (handleRequest apiKey rest).trace = .readString m e :: tail) := by
  have hask := askChatGPT_of_body net (TrimSpace message) apiKey jsonBody body hM hN hD
  rw [hdec] at hask
  have h1 : (askChatGPT net (TrimSpace message) apiKey).1 = .error .noResponse := by
    rw [hask]
  refine ⟨h1, rfl, ?_, ?_⟩
  · rw [handleRequest_line_error apiKey message net rest .noResponse h1, hask]
    rfl
  · intro step rest' hrest
    rw [hrest]
    exact handleRequest_starts_reading apiKey step rest'

/-- C4, at the line `hi` answered with `{"choices":[]}`, followed by the end of the
stream. -/
theorem empty_choices_error_line_witness :
    handleRequest "key"
      [.line "hi\n" (netAnswering (.json (.object [("choices", .array [])]))),
       .readErr "" .eof] =
      Outcome.after
        [.readString "hi\n" none,
         .marshal ⟨TrimSpace "hi\n", 150, ⟨7, -1⟩⟩,
         .newRequest "POST" openAIURL (plainMarshal ⟨TrimSpace "hi\n", 150, ⟨7, -1⟩⟩),
         .clientDo ⟨"POST", openAIURL,
           [("Content-Type", "application/json"), ("Authorization", "Bearer " ++ "key")],
           plainMarshal ⟨TrimSpace "hi\n", 150, ⟨7, -1⟩⟩⟩,
         .bodyClose,
         .stdout "Error asking ChatGPT: no response from ChatGPT\n",
         .connWrite "Error: no response from ChatGPT\n"]
        (handleRequest "key" [.readErr "" .eof]) :=
  (empty_choices_error_line "key" "hi\n" (plainMarshal ⟨TrimSpace "hi\n", 150, ⟨7, -1⟩⟩)
    (netAnswering (.json (.object [("choices", .array [])])))
    (.json (.object [("choices", .array [])])) [.readErr "" .eof]
    rfl rfl rfl (by decide)).2.2.1

/-! ## Round trip -/

theorem Decode_bodyWithText (t : String) : Decode (bodyWithText t) = .ok ⟨[⟨t⟩]⟩ := by
  have h1 : matchField "choices" "choices" = true := by decide
  have h2 : matchField "text" "text" = true := by decide
  simp [bodyWithText, Decode, decodeMembers, decodeChoices, decodeElems, decodeChoice,
    decodeChoiceMembers, decodeText, h1, h2]

/-- C5: when the service is reached and answers with the body
`{"choices":[{"text": t}]}`, the bytes `handleRequest` writes for the line are the
trimmed `t` followed by one newline, in one write; what is written after them belongs
to later lines (nothing at all after a `quit` line). -/
theorem round_trip (apiKey message jsonBody t : String) (net : Net) (rest : List Step)
    (hM : net.Marshal ⟨TrimSpace message, 150, ⟨7, -1⟩⟩ = .ok jsonBody)
    (hN : net.NewRequest "POST" openAIURL jsonBody = none)
    (hD : net.Do ⟨"POST", openAIURL,
        [("Content-Type", "application/json"), ("Authorization", "Bearer " ++ apiKey)],
        jsonBody⟩ = .ok (bodyWithText t)) :
    connWrites (handleRequest apiKey (.line message net :: rest)).trace =
      (TrimSpace t ++ "\n") ::
        (if TrimSpace message = "quit" then []
         else connWrites (handleRequest apiKey rest).trace) := by
  have hask := askChatGPT_of_body net (TrimSpace message) apiKey jsonBody
    (bodyWithText t) hM hN hD
  rw [Decode_bodyWithText] at hask
  have h1 : (askChatGPT net (TrimSpace message) apiKey).1 = .ok (TrimSpace t) := by
    rw [hask]
  by_cases hq : TrimSpace message = "quit"
  · rw [handleRequest_line_ok_quit apiKey message net rest _ h1 hq, hask]
    simp [connWrites, hq]
  · rw [handleRequest_line_ok_other apiKey message net rest _ h1 hq, hask]
    simp [connWrites, hq, Outcome.after]

/-- C5, at the text `  hello  `: the client receives `hello` and the newline. -/
theorem round_trip_witness :
    connWrites (handleRequest "key"
      (.line "hi\n" (netAnswering (bodyWithText "  hello  ")) :: [])).trace =
      ["hello\n"] :=
  (round_trip "key" "hi\n" (plainMarshal ⟨TrimSpace "hi\n", 150, ⟨7, -1⟩⟩) "  hello  "
    (netAnswering (bodyWithText "  hello  ")) [] rfl rfl rfl).trans (by decide)

/-! ## Failures of the completion client -/

/-- C6: when `askChatGPT` returns an error `e` for a line, `handleRequest` writes the
one chunk `Error: ` followed by the message of `e` and a newline, does not close the
connection, and goes on with the rest of the script as a fresh run would.  Hence after
any number of lines whose calls all fail, the connection is still not closed, every
one of those lines has got its `Error: ` line, in order, and the run goes on with what
follows. -/
theorem completion_failure_not_terminal (apiKey : String) :
    (∀ (message : String) (net : Net) (rest : List Step) (e : AskError),
      (askChatGPT net (TrimSpace message) apiKey).1 = .error e →
      ∃ before,
        handleRequest apiKey (.line message net :: rest) =
          Outcome.after
            (.readString message none :: before ++
              [.connWrite ("Error: " ++ e.Error ++ "\n")])
            (handleRequest apiKey rest) ∧
        connWrites before = [] ∧ readCount before = 0 ∧ closeCount before = 0) ∧
    (∀ (lines : List (String × Net)) (rest : List Step),
      (∀ p ∈ lines, ∃ e, (askChatGPT p.2 (TrimSpace p.1) apiKey).1 = .error e) →
      ∃ evs,
        handleRequest apiKey (lines.map (fun p => Step.line p.1 p.2) ++ rest) =
          Outcome.after evs (handleRequest apiKey rest) ∧
        closeCount evs = 0 ∧ readCount evs = lines.length ∧
        List.Forall₂
          (fun p w => ∃ e, (askChatGPT p.2 (TrimSpace p.1) apiKey).1 = .error e ∧
            w = "Error: " ++ e.Error ++ "\n")
          lines (connWrites evs)) := by
  have step : ∀ (message : String) (net : Net) (rest : List Step) (e : AskError),
      (askChatGPT net (TrimSpace message) apiKey).1 = .error e →
      ∃ before,
        handleRequest apiKey (.line message net :: rest) =
          Outcome.after
            (.readString message none :: before ++
              [.connWrite ("Error: " ++ e.Error ++ "\n")])
            (handleRequest apiKey rest) ∧
        connWrites before = [] ∧ readCount before = 0 ∧ closeCount before = 0 := by
    intro message net rest e h
    obtain ⟨_, hw, hr, hc⟩ := askChatGPT_calls net (TrimSpace message) apiKey
    refine ⟨(askChatGPT net (TrimSpace message) apiKey).2 ++
        [.stdout ("Error asking ChatGPT: " ++ e.Error ++ "\n")], ?_, ?_, ?_, ?_⟩
    · rw [handleRequest_line_error apiKey message net rest e h]
      simp
    · simp [connWrites_append, hw, connWrites]
    · simp [readCount_append, hr, readCount]
    · simp [closeCount_append, hc, closeCount]
  refine ⟨step, ?_⟩
  intro lines rest
  induction lines with
  | nil =>
    intro _
    exact ⟨[], by simp [Outcome.after], rfl, rfl, List.Forall₂.nil⟩
  | cons p ps ih =>
    intro hall
    obtain ⟨e, he⟩ := hall p (List.mem_cons_self _ _)
    obtain ⟨evs, hevs, hc, hr, hf⟩ := ih (fun q hq => hall q (List.mem_cons_of_mem _ hq))
    obtain ⟨before, hb, hbw, hbr, hbc⟩ :=
      step p.1 p.2 (ps.map (fun p => Step.line p.1 p.2) ++ rest) e he
    refine ⟨(.readString p.1 none :: before ++
        [.connWrite ("Error: " ++ e.Error ++ "\n")]) ++ evs, ?_, ?_, ?_, ?_⟩
    · rw [List.map_cons, List.cons_append, hb, hevs]
      simp [Outcome.after]
    · rw [closeCount_append, hc]
      simp [closeCount, closeCount_append, hbc]
    · rw [readCount_append, hr]
      simp [readCount, readCount_append, hbr]
      omega
    · have hw : connWrites (.readString p.1 none :: before ++
          [.connWrite ("Error: " ++ e.Error ++ "\n")]) =
          ["Error: " ++ e.Error ++ "\n"] := by
        show connWrites (before ++ [.connWrite ("Error: " ++ e.Error ++ "\n")]) = _
        rw [connWrites_append, hbw]
        rfl
      rw [connWrites_append, hw]
      exact List.Forall₂.cons ⟨e, he, rfl⟩ hf

/-- C6, at the session `quit`, `hi` with the service out of reach for both lines,
followed by the end of the stream. -/
theorem completion_failure_not_terminal_witness :
    ∃ evs,
      handleRequest "key"
        ([("quit\n", netDown), ("hi\n", netDown)].map (fun p => Step.line p.1 p.2) ++
          [.readErr "" .eof]) =
        Outcome.after evs (handleRequest "key" [.readErr "" .eof]) ∧
      closeCount evs = 0 ∧ readCount evs = 2 ∧
      List.Forall₂
        (fun p w => ∃ e, (askChatGPT p.2 (TrimSpace p.1) "key").1 = .error e ∧
          w = "Error: " ++ e.Error ++ "\n")
        [("quit\n", netDown), ("hi\n", netDown)] (connWrites evs) :=
  (completion_failure_not_terminal "key").2 [("quit\n", netDown), ("hi\n", netDown)]
    [.readErr "" .eof]
    (by
      intro p hp
      refine ⟨.transport "dial tcp: connect: connection refused", ?_⟩
      simp only [List.mem_cons, List.mem_singleton, List.not_mem_nil, or_false] at hp
      rcases hp with rfl | rfl <;> decide)

/-! ## Closing the connection -/

/-- C7: whenever `handleRequest` returns, `conn.Close` has been called exactly once and
it is the last call of the run; as long as the function has not returned, the
connection has not been closed.  A read that returns an error, end of stream or not,
ends the run at once: after that `ReadString` there is a notice on standard output and
`conn.Close`, no call of the completion client and no write. -/
theorem close_once_and_last (apiKey : String) :
    (∀ script, (handleRequest apiKey script).returned = true →
      ∃ before, (handleRequest apiKey script).trace = before ++ [.connClose] ∧
        closeCount before = 0) ∧
    (∀ script, (handleRequest apiKey script).returned = false →
      closeCount (handleRequest apiKey script).trace = 0) ∧
    (∀ data err rest, ∃ notice,
      handleRequest apiKey (.readErr data err :: rest) =
        ⟨[.readString data (some err), .stdout notice, .connClose], true⟩) := by
  refine ⟨?_, ?_, fun data err rest => handleRequest_readErr apiKey data err rest⟩
  · intro script
    induction script with
    | nil => intro h; simp [handleRequest] at h
    | cons step rest ih =>
      cases step with
      | readErr data err =>
        intro _
        obtain ⟨notice, h⟩ := handleRequest_readErr apiKey data err rest
        rw [h]
        exact ⟨[.readString data (some err), .stdout notice], rfl, rfl⟩
      | line message net =>
        obtain ⟨_, _, _, hc⟩ := askChatGPT_calls net (TrimSpace message) apiKey
        cases h : (askChatGPT net (TrimSpace message) apiKey).1 with
        | error e =>
          rw [handleRequest_line_error apiKey message net rest e h]
          intro hret
          obtain ⟨before, hb, hbc⟩ := ih hret
          refine ⟨([.readString message none] ++
            (askChatGPT net (TrimSpace message) apiKey).2 ++
            [.stdout ("Error asking ChatGPT: " ++ e.Error ++ "\n"),
             .connWrite ("Error: " ++ e.Error ++ "\n")]) ++ before, ?_, ?_⟩
          · simp only [Outcome.after, hb, List.append_assoc]
          · simp [closeCount_append, closeCount, hc, hbc]
        | ok response =>
          by_cases hq : TrimSpace message = "quit"
          · rw [handleRequest_line_ok_quit apiKey message net rest response h hq]
            intro _
            refine ⟨[.readString message none] ++
              (askChatGPT net (TrimSpace message) apiKey).2 ++
              [.connWrite (response ++ "\n"), .stdout "Client sent quit command\n"],
              by simp, ?_⟩
            simp [closeCount_append, closeCount, hc]
          · rw [handleRequest_line_ok_other apiKey message net rest response h hq]
            intro hret
            obtain ⟨before, hb, hbc⟩ := ih hret
            refine ⟨([.readString message none] ++
              (askChatGPT net (TrimSpace message) apiKey).2 ++
              [.connWrite (response ++ "\n")]) ++ before, ?_, ?_⟩
            · simp only [Outcome.after, hb, List.append_assoc]
            · simp [closeCount_append, closeCount, hc, hbc]
  · intro script
    induction script with
    | nil => intro _; rfl
    | cons step rest ih =>
      cases step with
      | readErr data err =>
        intro h
        obtain ⟨notice, h2⟩ := handleRequest_readErr apiKey data err rest
        rw [h2] at h
        simp at h
      | line message net =>
        obtain ⟨_, _, _, hc⟩ := askChatGPT_calls net (TrimSpace message) apiKey
        cases h : (askChatGPT net (TrimSpace message) apiKey).1 with
        | error e =>
          rw [handleRequest_line_error apiKey message net rest e h]
          intro hret
          have := ih hret
          simp [Outcome.after, closeCount_append, closeCount, hc, this]
        | ok response =>
          by_cases hq : TrimSpace message = "quit"
          · rw [handleRequest_line_ok_quit apiKey message net rest response h hq]
            intro hret
            simp at hret
          · rw [handleRequest_line_ok_other apiKey message net rest response h hq]
            intro hret
            have := ih hret
            simp [Outcome.after, closeCount_append, closeCount, hc, this]

/-- C7, at the session `hi` (answered), `quit` (answered), and at the session `hi`
(answered) with nothing more to read. -/
theorem close_once_and_last_witness :
    (∃ before,
      (handleRequest "key"
        [.line "hi\n" (netAnswering (bodyWithText "hello")),
         .line "quit\n" (netAnswering (bodyWithText "bye"))]).trace =
        before ++ [.connClose] ∧ closeCount before = 0) ∧
    closeCount (handleRequest "key"
      [.line "hi\n" (netAnswering (bodyWithText "hello"))]).trace = 0 :=
  ⟨(close_once_and_last "key").1
      [.line "hi\n" (netAnswering (bodyWithText "hello")),
       .line "quit\n" (netAnswering (bodyWithText "bye"))] (by decide),
   (close_once_and_last "key").2.1
      [.line "hi\n" (netAnswering (bodyWithText "hello"))] (by decide)⟩

/-! ## The request payload -/

/-- C8: for every line read without error, the first thing `handleRequest` does is to
have `askChatGPT` build the payload with the prompt `TrimSpace message`, `max_tokens`
150 and `temperature` 0.7, whatever the line and the credential; it is the only
payload built for that line, and the request sent carries its JSON encoding.  The
prompt is the line without a leading and a trailing run of white space, and neither
starts nor ends with white space (so the line terminator is gone). -/
theorem prompt_and_payload (apiKey message : String) (net : Net) (rest : List Step) :
    (∃ tail, (handleRequest apiKey (.line message net :: rest)).trace =
      .readString message none :: .marshal ⟨TrimSpace message, 150, ⟨7, -1⟩⟩ :: tail) ∧
    marshalled (askChatGPT net (TrimSpace message) apiKey).2 =
      [⟨TrimSpace message, 150, ⟨7, -1⟩⟩] ∧
    (∀ req, .clientDo req ∈ (askChatGPT net (TrimSpace message) apiKey).2 →
      net.Marshal ⟨TrimSpace message, 150, ⟨7, -1⟩⟩ = .ok req.body ∧
      req.method = "POST" ∧ req.url = openAIURL) ∧
    (∃ pre post : List Char,
      message.data = pre ++ (TrimSpace message).data ++ post ∧
      (∀ c ∈ pre, isSpace c = true) ∧ (∀ c ∈ post, isSpace c = true) ∧
      (∀ c, (TrimSpace message).data.head? = some c → isSpace c = false) ∧
      (∀ c, (TrimSpace message).data.getLast? = some c → isSpace c = false)) := by
  obtain ⟨⟨tail, htail, hm⟩, _, _, _⟩ := askChatGPT_calls net (TrimSpace message) apiKey
  refine ⟨?_, ?_, ?_, TrimSpace_spec message⟩
  · cases h : (askChatGPT net (TrimSpace message) apiKey).1 with
    | error e =>
      rw [handleRequest_line_error apiKey message net rest e h, htail]
      exact ⟨_, by simp [Outcome.after]; rfl⟩
    | ok response =>
      by_cases hq : TrimSpace message = "quit"
      · rw [handleRequest_line_ok_quit apiKey message net rest response h hq, htail]
        exact ⟨_, by simp; rfl⟩
      · rw [handleRequest_line_ok_other apiKey message net rest response h hq, htail]
        exact ⟨_, by simp [Outcome.after]; rfl⟩
  · rw [htail]
    simp [marshalled, hm]
  · intro req hreq
    cases hM : net.Marshal ⟨TrimSpace message, 150, ⟨7, -1⟩⟩ with
    | error e => simp [askChatGPT, hM] at hreq
    | ok jsonBody =>
      cases hN : net.NewRequest "POST" openAIURL jsonBody with
      | some e => simp [askChatGPT, hM, hN] at hreq
      | none =>
        cases hD : net.Do ⟨"POST", openAIURL,
            [("Content-Type", "application/json"),
             ("Authorization", "Bearer " ++ apiKey)], jsonBody⟩ with
        | error e =>
          simp [askChatGPT, hM, hN, hD] at hreq
          subst hreq
          exact ⟨rfl, rfl, rfl⟩
        | ok body =>
          rw [askChatGPT_of_body net (TrimSpace message) apiKey jsonBody body hM hN hD]
            at hreq
          simp at hreq
          subst hreq
          exact ⟨rfl, rfl, rfl⟩

/-- C8, at the line `  tell me  ` with its terminator and the credential `key`. -/
theorem prompt_and_payload_witness :
    (netAnswering (bodyWithText "ok")).Marshal ⟨TrimSpace "  tell me  \n", 150, ⟨7, -1⟩⟩ =
      .ok (plainMarshal ⟨"tell me", 150, ⟨7, -1⟩⟩) ∧
    "POST" = "POST" ∧ openAIURL = openAIURL :=
  (prompt_and_payload "key" "  tell me  \n" (netAnswering (bodyWithText "ok")) []).2.2.1
    ⟨"POST", openAIURL,
      [("Content-Type", "application/json"), ("Authorization", "Bearer key")],
      plainMarshal ⟨"tell me", 150, ⟨7, -1⟩⟩⟩
    (by decide)

/-! ## Bodies the decoder accepts and rejects -/

theorem decodeChoices_reject (v : JSON) (h1 : ∀ elems, v ≠ .array elems) (h2 : v ≠ .null) :
    ∃ e, decodeChoices v = .error e := by
  cases v with
  | null => exact absurd rfl h2
  | array elems => exact absurd rfl (h1 elems)
  | bool b => exact ⟨_, rfl⟩
  | number n => exact ⟨_, rfl⟩
  | string s => exact ⟨_, rfl⟩
  | object ms => exact ⟨_, rfl⟩

theorem decodeMembers_reject (members : List (String × JSON))
    (h : ∃ m ∈ members, matchField "choices" m.1 = true ∧
      (∀ elems, m.2 ≠ .array elems) ∧ m.2 ≠ .null) :
    ∀ cur, ∃ e, decodeMembers cur members = .error e := by
  induction members with
  | nil => obtain ⟨m, hm, _⟩ := h; simp at hm
  | cons kv rest ih =>
    obtain ⟨k, v⟩ := kv
    intro cur
    obtain ⟨m, hm, hk, ha, hn⟩ := h
    by_cases hkv : matchField "choices" k = true
    · cases hd : decodeChoices v with
      | error e => exact ⟨e, by simp [decodeMembers, hkv, hd]⟩
      | ok cs =>
        rcases List.mem_cons.mp hm with rfl | hrest
        · obtain ⟨e, he⟩ := decodeChoices_reject v ha hn
          rw [he] at hd
          simp at hd
        · obtain ⟨e, he⟩ := ih ⟨m, hrest, hk, ha, hn⟩ ⟨cs⟩
          exact ⟨e, by simp [decodeMembers, hkv, hd, he]⟩
    · rcases List.mem_cons.mp hm with rfl | hrest
      · exact absurd hk hkv
      · obtain ⟨e, he⟩ := ih ⟨m, hrest, hk, ha, hn⟩ cur
        exact ⟨e, by simp [decodeMembers, hkv, he]⟩

theorem decodeMembers_skip (members : List (String × JSON))
    (h : ∀ m ∈ members, matchField "choices" m.1 = false) :
    ∀ cur, decodeMembers cur members = .ok cur := by
  induction members with
  | nil => intro cur; rfl
  | cons kv rest ih =>
    obtain ⟨k, v⟩ := kv
    intro cur
    have hk : matchField "choices" k = false := h (k, v) (List.mem_cons_self _ _)
    simp [decodeMembers, hk, ih (fun m hm => h m (List.mem_cons_of_mem _ hm)) cur]

/-- C9 (counterexample): the service answers with the body `{}`, a valid JSON object
without a `choices` array.  It decodes without error to an empty sequence of
candidates, and `askChatGPT` fails with the empty-candidate error, not with a decoding
error. -/
theorem object_without_choices_is_decoded :
    Decode (.json (.object [])) = .ok ⟨[]⟩ ∧
    (askChatGPT (netAnswering (.json (.object []))) "hi" "key").1 = .error .noResponse ∧
    isDecodeFailure (askChatGPT (netAnswering (.json (.object []))) "hi" "key").1 = false := by
  refine ⟨by decide, by decide, by decide⟩

/-- C9 (amended): when the service is reached and `Decode` rejects the response body,
`askChatGPT` fails with that decoding error, which is not the empty-candidate error.
`Decode` rejects a body from which no complete JSON value can be read, a JSON value
that is neither an object nor `null`, and an object in which a member selecting
`choices` holds neither an array nor `null`.  An object in which no member selects
`choices` is not rejected: `askChatGPT` then fails with the empty-candidate error. -/
theorem decode_failure_reported :
    (∀ (net : Net) (prompt apiKey jsonBody : String) (body : Body) (e : DecodeError),
      net.Marshal ⟨prompt, 150, ⟨7, -1⟩⟩ = .ok jsonBody →
      net.NewRequest "POST" openAIURL jsonBody = none →
      net.Do ⟨"POST", openAIURL,
        [("Content-Type", "application/json"), ("Authorization", "Bearer " ++ apiKey)],
        jsonBody⟩ = .ok body →
      Decode body = .error e →
      (askChatGPT net prompt apiKey).1 = .error (.decode e) ∧
      AskError.decode e ≠ AskError.noResponse) ∧
    (∀ err, Decode (.invalid err) = .error (.stream err)) ∧
    (∀ v, (∀ members, v ≠ .object members) → v ≠ .null →
      ∃ e, Decode (.json v) = .error e) ∧
    (∀ members,
      (∃ m ∈ members, matchField "choices" m.1 = true ∧
        (∀ elems, m.2 ≠ .array elems) ∧ m.2 ≠ .null) →
      ∃ e, Decode (.json (.object members)) = .error e) ∧
    (∀ (net : Net) (prompt apiKey jsonBody : String) (members : List (String × JSON)),
      net.Marshal ⟨prompt, 150, ⟨7, -1⟩⟩ = .ok jsonBody →
      net.NewRequest "POST" openAIURL jsonBody = none →
      net.Do ⟨"POST", openAIURL,
        [("Content-Type", "application/json"), ("Authorization", "Bearer " ++ apiKey)],
        jsonBody⟩ = .ok (.json (.object members)) →
      (∀ m ∈ members, matchField "choices" m.1 = false) →
      (askChatGPT net prompt apiKey).1 = .error .noResponse) := by
  refine ⟨?_, fun _ => rfl, ?_, ?_, ?_⟩
  · intro net prompt apiKey jsonBody body e hM hN hD hdec
    refine ⟨?_, by simp⟩
    rw [askChatGPT_of_body net prompt apiKey jsonBody body hM hN hD, hdec]
  · intro v h1 h2
    cases v with
    | null => exact absurd rfl h2
    | object ms => exact absurd rfl (h1 ms)
    | bool b => exact ⟨_, rfl⟩
    | number n => exact ⟨_, rfl⟩
    | string s => exact ⟨_, rfl⟩
    | array elems => exact ⟨_, rfl⟩
  · intro members h
    exact decodeMembers_reject members h ⟨[]⟩
  · intro net prompt apiKey jsonBody members hM hN hD hno
    rw [askChatGPT_of_body net prompt apiKey jsonBody _ hM hN hD]
    have : Decode (.json (.object members)) = .ok ⟨[]⟩ := decodeMembers_skip members hno ⟨[]⟩
    rw [this]

/-- C9 (amended), at a body cut short, at the body `[]`, at the body
`{"choices":"none"}` and at the body `{"error":"unauthorized"}`. -/
theorem decode_failure_reported_witness :
    ((askChatGPT (netAnswering (.invalid "unexpected EOF")) "hi" "key").1 =
        .error (.decode (.stream "unexpected EOF")) ∧
      AskError.decode (.stream "unexpected EOF") ≠ AskError.noResponse) ∧
    (∃ e, Decode (.json (.array [])) = .error e) ∧
    (∃ e, Decode (.json (.object [("choices", .string "none")])) = .error e) ∧
    (askChatGPT (netAnswering (.json (.object [("error", .string "unauthorized")])))
      "hi" "key").1 = .error .noResponse :=
  ⟨decode_failure_reported.1 (netAnswering (.invalid "unexpected EOF")) "hi" "key"
      (plainMarshal ⟨"hi", 150, ⟨7, -1⟩⟩) (.invalid "unexpected EOF")
      (.stream "unexpected EOF") rfl rfl rfl rfl,
   decode_failure_reported.2.2.1 (.array []) (by intro ms h; cases h)
      (by intro h; cases h),
   decode_failure_reported.2.2.2.1 [("choices", .string "none")]
      ⟨("choices", .string "none"), List.mem_cons_self _ _, (by decide),
        (by intro elems h; cases h), (by intro h; cases h)⟩,
   decode_failure_reported.2.2.2.2 (netAnswering (.json (.object [("error", .string "unauthorized")])))
      "hi" "key" (plainMarshal ⟨"hi", 150, ⟨7, -1⟩⟩) [("error", .string "unauthorized")]
      rfl rfl rfl
      (by
        intro m hm
        simp only [List.mem_singleton] at hm
        subst hm
        decide)⟩

/-! ## Input that ends without a newline -/

/-- C10: when `ReadString` returns data together with an error (end of stream or any
other), whatever the data is, `handleRequest` does nothing with it: the run ends with
that read, a notice on standard output and `conn.Close`; no payload is built, no
request is sent, nothing is written to the connection, and the rest of the script is
never read. -/
theorem unterminated_tail_dropped (apiKey data : String) (err : ReadErr)
    (rest : List Step) :
    (∃ notice, (handleRequest apiKey (.readErr data err :: rest)).trace =
      [.readString data (some err), .stdout notice, .connClose]) ∧
    (handleRequest apiKey (.readErr data err :: rest)).returned = true ∧
    connWrites (handleRequest apiKey (.readErr data err :: rest)).trace = [] ∧
    marshalled (handleRequest apiKey (.readErr data err :: rest)).trace = [] ∧
    (∀ req, Event.clientDo req ∉ (handleRequest apiKey (.readErr data err :: rest)).trace) ∧
    readCount (handleRequest apiKey (.readErr data err :: rest)).trace = 1 ∧
    handleRequest apiKey (.readErr data err :: rest) =
      handleRequest apiKey [.readErr data err] := by
  obtain ⟨notice, h⟩ := handleRequest_readErr apiKey data err rest
  obtain ⟨notice', h'⟩ := handleRequest_readErr apiKey data err []
  have hn : notice' = notice := by
    have : handleRequest apiKey (.readErr data err :: rest) =
        handleRequest apiKey [.readErr data err] := by
      simp [handleRequest]
    rw [h, h'] at this
    simp at this
    exact this.symm
  rw [h]
  refine ⟨⟨notice, rfl⟩, rfl, rfl, rfl, ?_, rfl, ?_⟩
  · intro req hreq
    simp at hreq
  · rw [h', hn]

/-- C10, at the unterminated data `quit` followed by the end of the stream. -/
theorem unterminated_tail_dropped_witness :
    (handleRequest "key" [.readErr "quit" .eof]).returned = true ∧
    connWrites (handleRequest "key" [.readErr "quit" .eof]).trace = [] ∧
    marshalled (handleRequest "key" [.readErr "quit" .eof]).trace = [] :=
  ⟨(unterminated_tail_dropped "key" "quit" .eof []).2.1,
   (unterminated_tail_dropped "key" "quit" .eof []).2.2.1,
   (unterminated_tail_dropped "key" "quit" .eof []).2.2.2.1⟩

end Ex2Week3
